import Mathlib

/-!
Verification development for the audio-assessment HTTP gateway
(`server.js`): a single-endpoint service that validates a multipart
request, transcribes an uploaded audio file, asks a generation
capability for a structured evaluation, and cleans up the temporary
upload on the way out.

The embedding models:
* `retryOperation` — the retry orchestrator (`server.js` lines 65-83),
  with the supplied operation modelled as an oracle mapping the
  invocation index to that invocation outcome (`Except` with the
  thrown error message on failure);
* `Json` — the values `JSON.parse` can produce (numbers restricted to
  integers, which covers every score discussed here);
* `postAssessment` — the `POST /api/assessment` handler
  (`server.js` lines 86-219) together with the file side effects of the
  multer upload middleware, returning a `HandlerOutcome` that records
  the HTTP status, the response body, the temporary files created, the
  paths passed to `cleanupFile`, and how many times each external
  capability was invoked;
* `notFoundHandler` — the catch-all 404 handler
  (`server.js` lines 241-248).
-/

set_option autoImplicit false

universe u

/-- Outcome of the `retryOperation` JS function: a returned value, a
thrown aggregated error, or resolving to `undefined` (the `while` loop
body never entered, which happens exactly when `maxRetries <= 0`). -/
inductive RetryOutcome (α : Type u) where
  | success : α → RetryOutcome α
  | failure : String → RetryOutcome α
  | undef : RetryOutcome α
deriving DecidableEq

/-- Model of the JS `String.prototype.toLowerCase` used on the
operation label: lowercase every character (the labels used here are
ASCII). -/
def jsToLowerCase (s : String) : String :=
  ⟨s.data.map Char.toLower⟩

/-- Message of the aggregated error thrown once `retryCount` reaches
`maxRetries` (`server.js` line 76). -/
def retryFailureMessage (operationName : String) (maxRetries : Int) (msg : String) : String :=
  "Failed to complete " ++ jsToLowerCase operationName ++ " after " ++ toString maxRetries
    ++ " attempts: " ++ msg

/-- Body of the `while (retryCount < maxRetries)` loop of
`retryOperation` (`server.js` lines 68-82). `i` is the 0-based index of
the invocation about to run (equal to the JS `retryCount` at the top of
the iteration); `fuel` bounds the remaining iterations and is chosen in
`retryOperation` so that it runs out exactly when the loop condition is
false on entry. Returns the outcome, the number of invocations of the
operation performed, and the list of backoff delays awaited, in
milliseconds (`1000 * retryCount` after the increment,
`server.js` line 80). -/
def retryLoop {α : Type u} (operation : Nat → Except String α) (maxRetries : Int)
    (operationName : String) : Nat → Nat → RetryOutcome α × Nat × List Int
  | _, 0 => (.undef, 0, [])
  | i, fuel + 1 =>
    match operation i with
    | .ok a => (.success a, 1, [])
    | .error msg =>
      if (i : Int) + 1 ≥ maxRetries then
        (.failure (retryFailureMessage operationName maxRetries msg), 1, [])
      else
        match retryLoop operation maxRetries operationName (i + 1) fuel with
        | (o, n, ds) => (o, n + 1, (1000 * ((i : Int) + 1)) :: ds)

/-- The retry orchestrator `retryOperation` (`server.js` lines 65-83).
The operation is an oracle from the invocation index to that
invocation outcome. In the source `maxRetries` defaults to `3` and
`operationName` to `"Operation"`; callers here always pass them
explicitly. When `maxRetries ≥ 1` the loop can only exit by returning
or throwing, both of which happen within `maxRetries` invocations, so
`maxRetries.toNat` fuel is exact; when `maxRetries ≤ 0` the loop body
never runs and the JS function resolves to `undefined`. -/
def retryOperation {α : Type u} (operation : Nat → Except String α) (maxRetries : Int)
    (operationName : String) : RetryOutcome α × Nat × List Int :=
  retryLoop operation maxRetries operationName 0 (if maxRetries ≤ 0 then 0 else maxRetries.toNat)

/-- Values produced by `JSON.parse`, with numbers restricted to
integers (all numeric fields the claims mention are integers). -/
inductive Json where
  | null : Json
  | bool : Bool → Json
  | num : Int → Json
  | str : String → Json
  | arr : List Json → Json
  | obj : List (String × Json) → Json

/-- Field lookup on a JSON object; `none` on any other shape. -/
def Json.lookup : Json → String → Option Json
  | .obj fields, k => fields.lookup k
  | _, _ => none

/-- Extract an integer from a JSON number. -/
def Json.asInt : Json → Option Int
  | .num n => some n
  | _ => none

/-- Length of a JSON array; `none` on any other shape. -/
def Json.arrayLength : Json → Option Nat
  | .arr xs => some xs.length
  | _ => none

/-- Whether the `score` member of an assessment JSON value satisfies
the documented rubric shape: `content`, `clarity`, `completeness` all
integers in `[0, 5]` and `total` equal to their sum. -/
def scoreWellFormed (j : Json) : Bool :=
  match j.lookup "score" with
  | none => false
  | some s =>
    match (s.lookup "content").bind Json.asInt, (s.lookup "clarity").bind Json.asInt,
        (s.lookup "completeness").bind Json.asInt, (s.lookup "total").bind Json.asInt with
    | some c, some cl, some co, some t =>
      (t == c + cl + co) && (0 ≤ c && c ≤ 5) && (0 ≤ cl && cl ≤ 5) && (0 ≤ co && co ≤ 5)
    | _, _, _, _ => false

/-- The hardcoded fallback evaluation substituted when `JSON.parse`
throws on the generation output (`server.js` lines 172-183). -/
def fallbackJson : Json :=
  .obj [
    ("strengths", .arr [.str "Good effort"]),
    ("areasToImprove", .arr [.str "Could improve structure"]),
    ("perfectDefinition", .str "A comprehensive answer with clear examples"),
    ("encouragement", .str "Keep practicing!"),
    ("score", .obj [
      ("content", .num 3),
      ("clarity", .num 2),
      ("completeness", .num 1),
      ("total", .num 6)])]

/-- Model of the JS `String.prototype.includes` substring test used by
the catch-block classifier: the empty pattern is always contained, and
a non-empty pattern is contained iff splitting on it produces more
than one part. -/
def strContains (s pat : String) : Bool :=
  if pat = "" then true else (s.splitOn pat).length ≥ 2

/-- Error-message classifier of the catch block
(`server.js` lines 205-212): sequential substring checks for
`"ECONNRESET"`, `"API key"` and `"rate limit"`, falling back to the
generic message. -/
def categorizeError (msg : String) : String :=
  if strContains msg "ECONNRESET" then
    "Network connection issue. Please check your internet connection and try again."
  else if strContains msg "API key" then
    "OpenAI API key issue. Please check your configuration."
  else if strContains msg "rate limit" then
    "OpenAI rate limit exceeded. Please wait a moment and try again."
  else
    "Failed to assess audio"

/-- The file multer writes for the `audio` field: its on-disk `path`,
its generated `filename`, the client-supplied `originalname`, and its
`size` in bytes. -/
structure UploadedFile where
  path : String
  filename : String
  originalname : String
  size : Nat
deriving DecidableEq

/-- Environment of one request: the outcomes of the successive
invocations of the two external capabilities (`transcriptionAttempts i`
is the outcome of the `i`-th whisper call, `evaluationAttempts i` the
content string of the `i`-th chat-completion call), the behavior of
`JSON.parse` on content strings, and the `new Date().toISOString()`
timestamp. -/
structure Env where
  transcriptionAttempts : Nat → Except String String
  evaluationAttempts : Nat → Except String String
  parse : String → Except String Json
  now : String

/-- The `metadata` member of the success response
(`server.js` lines 191-198). -/
structure Metadata where
  audioFile : String
  originalName : String
  fileSize : Nat
  model : String
  transcriptionModel : String
  evaluatedAt : String
deriving DecidableEq

/-- Response bodies the handler can produce: the 400 bodies
(`error`/`message`), the 500 body (`error`/`details`), the 200 body
(`success` flag, echoed question, transcription, assessment JSON,
metadata), and the 404 body
(`error`/`message`/`availableEndpoint`). -/
inductive Body where
  | badRequest (error message : String)
  | serverError (error details : String)
  | success (successFlag : Bool) (question transcription : String)
      (assessment : Json) (metadata : Metadata)
  | notFound (error message availableEndpoint : String)

/-- The `assessment` member of a 200 body, when present. -/
def Body.assessmentJson : Body → Option Json
  | .success _ _ _ a _ => some a
  | _ => none

/-- The `availableEndpoint` member of a 404 body, when present. -/
def Body.availableEndpointHint : Body → Option String
  | .notFound _ _ e => some e
  | _ => none

/-- Observable outcome of one request: HTTP status, response body, the
temporary files the upload middleware wrote, the paths passed to
`cleanupFile`, and how many times each external capability was
invoked. -/
structure HandlerOutcome where
  status : Nat
  body : Body
  filesCreated : List String
  cleanupCalls : List String
  transcriptionCalls : Nat
  evaluationCalls : Nat

/-- Temporary files still on disk when the request terminates: the
files created whose paths were never passed to `cleanupFile`
(`cleanupFile` deletes an existing file and is a no-op otherwise). -/
def HandlerOutcome.remainingFiles (o : HandlerOutcome) : List String :=
  o.filesCreated.filter (fun p => !(o.cleanupCalls.contains p))

/-- The `POST /api/assessment` handler (`server.js` lines 86-219),
including the file side effect of `upload.single('audio')`: when the
`audio` field is present multer writes the uploaded bytes to
`f.path` before the handler body runs, otherwise `req.file` is
`undefined` and nothing is written. `question` is `req.body.question`
(`none` when the field is absent); the JS truthiness test
`!req.body.question` also rejects the empty string. Transcription and
evaluation both go through `retryOperation` with `maxRetries = 3`; an
aggregated retry failure is the error the catch block
(`server.js` lines 201-218) receives, which cleans up the upload and
responds 500 with the classified message and the raw message as
`details`. On the success path the upload is cleaned up first
(`server.js` line 164), then the evaluation content is parsed, the
fallback substituted if parsing throws, and the 200 body assembled.
The `.undef` retry arms are unreachable for `maxRetries = 3` (theorem
`retryOperation_three_characterization` below) and mirror the catch
block. -/
def postAssessment (env : Env) (audioField : Option UploadedFile)
    (question : Option String) : HandlerOutcome :=
  match audioField with
  | none =>
    { status := 400,
      body := .badRequest "No audio file provided" "Please provide an audio file in the request",
      filesCreated := [], cleanupCalls := [],
      transcriptionCalls := 0, evaluationCalls := 0 }
  | some f =>
    if (question.getD "") == "" then
      { status := 400,
        body := .badRequest "No question provided" "Please provide a question in the request body",
        filesCreated := [f.path], cleanupCalls := [],
        transcriptionCalls := 0, evaluationCalls := 0 }
    else
      let q := question.getD ""
      match retryOperation env.transcriptionAttempts 3 "Transcription" with
      | (.failure msg, ta, _) =>
        { status := 500, body := .serverError (categorizeError msg) msg,
          filesCreated := [f.path], cleanupCalls := [f.path],
          transcriptionCalls := ta, evaluationCalls := 0 }
      | (.undef, ta, _) =>
        { status := 500, body := .serverError (categorizeError "") "",
          filesCreated := [f.path], cleanupCalls := [f.path],
          transcriptionCalls := ta, evaluationCalls := 0 }
      | (.success transcription, ta, _) =>
        match retryOperation env.evaluationAttempts 3 "Evaluation" with
        | (.failure msg, ea, _) =>
          { status := 500, body := .serverError (categorizeError msg) msg,
            filesCreated := [f.path], cleanupCalls := [f.path],
            transcriptionCalls := ta, evaluationCalls := ea }
        | (.undef, ea, _) =>
          { status := 500, body := .serverError (categorizeError "") "",
            filesCreated := [f.path], cleanupCalls := [f.path],
            transcriptionCalls := ta, evaluationCalls := ea }
        | (.success content, ea, _) =>
          let evaluation :=
            match env.parse content with
            | .ok j => j
            | .error _ => fallbackJson
          { status := 200,
            body := .success true q transcription evaluation
              { audioFile := f.filename, originalName := f.originalname,
                fileSize := f.size, model := "gpt-4o-mini",
                transcriptionModel := "whisper-1", evaluatedAt := env.now },
            filesCreated := [f.path], cleanupCalls := [f.path],
            transcriptionCalls := ta, evaluationCalls := ea }

/-- The catch-all 404 handler (`server.js` lines 241-248). -/
def notFoundHandler (method originalUrl : String) : HandlerOutcome :=
  { status := 404,
    body := .notFound "Endpoint not found"
      ("The endpoint " ++ method ++ " " ++ originalUrl ++ " does not exist")
      "POST /api/assess",
    filesCreated := [], cleanupCalls := [],
    transcriptionCalls := 0, evaluationCalls := 0 }

/-- The one route the server actually registers
(`server.js` line 86). -/
def servedEndpoint : String := "POST /api/assessment"

/-! ### Retry orchestrator lemmas -/

theorem retryOperation_three_ok0 {α : Type u} (op : Nat → Except String α) (name : String)
    (a : α) (h0 : op 0 = .ok a) :
    retryOperation op 3 name = (.success a, 1, []) := by
  simp [retryOperation, retryLoop, h0]

theorem retryOperation_three_ok1 {α : Type u} (op : Nat → Except String α) (name : String)
    (a : α) (m0 : String) (h0 : op 0 = .error m0) (h1 : op 1 = .ok a) :
    retryOperation op 3 name = (.success a, 2, [1000]) := by
  simp [retryOperation, retryLoop, h0, h1]

theorem retryOperation_three_ok2 {α : Type u} (op : Nat → Except String α) (name : String)
    (a : α) (m0 m1 : String) (h0 : op 0 = .error m0) (h1 : op 1 = .error m1)
    (h2 : op 2 = .ok a) :
    retryOperation op 3 name = (.success a, 3, [1000, 2000]) := by
  simp [retryOperation, retryLoop, h0, h1, h2]

theorem retryOperation_three_err {α : Type u} (op : Nat → Except String α) (name : String)
    (m0 m1 m2 : String) (h0 : op 0 = .error m0) (h1 : op 1 = .error m1)
    (h2 : op 2 = .error m2) :
    retryOperation op 3 name =
      (.failure (retryFailureMessage name 3 m2), 3, [1000, 2000]) := by
  simp [retryOperation, retryLoop, h0, h1, h2]

theorem retryOperation_three_not_undef {α : Type u} (op : Nat → Except String α)
    (name : String) : (retryOperation op 3 name).1 ≠ .undef := by
  cases h0 : op 0 with
  | ok a => rw [retryOperation_three_ok0 op name a h0]; simp
  | error m0 =>
    cases h1 : op 1 with
    | ok a => rw [retryOperation_three_ok1 op name a m0 h0 h1]; simp
    | error m1 =>
      cases h2 : op 2 with
      | ok a => rw [retryOperation_three_ok2 op name a m0 m1 h0 h1 h2]; simp
      | error m2 => rw [retryOperation_three_err op name m0 m1 m2 h0 h1 h2]; simp

/-- C3: with maximum attempts 3, an operation failing twice then
succeeding on the third attempt returns the third attempt result after
exactly the two backoff delays `1 * 1000` ms and `2 * 1000` ms
(`attempt_index * 1` second for attempt indexes 1 and 2); an operation
failing on all 3 attempts raises, after exactly 3 attempts, the
aggregated error naming the operation (lowercased) and embedding the
last underlying message; success on the first or the second attempt
short-circuits the remaining retries. -/
theorem retryOperation_three_spec {α : Type u} (op : Nat → Except String α) (name : String)
    (v : α) (m0 m1 m2 : String) :
    (op 0 = .error m0 → op 1 = .error m1 → op 2 = .ok v →
      retryOperation op 3 name = (.success v, 3, [1000, 2000])) ∧
    (op 0 = .error m0 → op 1 = .error m1 → op 2 = .error m2 →
      retryOperation op 3 name =
        (.failure ("Failed to complete " ++ jsToLowerCase name ++ " after 3 attempts: " ++ m2),
          3, [1000, 2000])) ∧
    (op 0 = .ok v → retryOperation op 3 name = (.success v, 1, [])) ∧
    (op 0 = .error m0 → op 1 = .ok v → retryOperation op 3 name = (.success v, 2, [1000])) := by
  refine ⟨fun h0 h1 h2 => retryOperation_three_ok2 op name v m0 m1 h0 h1 h2,
    fun h0 h1 h2 => ?_,
    fun h0 => retryOperation_three_ok0 op name v h0,
    fun h0 h1 => retryOperation_three_ok1 op name v m0 h0 h1⟩
  rw [retryOperation_three_err op name m0 m1 m2 h0 h1 h2]
  have ht : toString (3 : Int) = "3" := rfl
  have key : ∀ x : String, ((x ++ " after ") ++ "3") ++ " attempts: " = x ++ " after 3 attempts: " := by
    intro x
    rw [String.append_assoc, String.append_assoc]
    rfl
  simp only [retryFailureMessage, ht, key]

/-- Concrete operation used to witness `retryOperation_three_spec`:
fails on its first two invocations and succeeds on the third. -/
def opFailTwice : Nat → Except String Nat :=
  fun i => if i = 0 then .error "boom0" else if i = 1 then .error "boom1" else .ok 7

theorem retryOperation_three_spec_witness :
    retryOperation opFailTwice 3 "Transcription" = (.success 7, 3, [1000, 2000]) :=
  (retryOperation_three_spec opFailTwice "Transcription" 7 "boom0" "boom1" "x").1 rfl rfl rfl

/-- C10: called with `maxRetries ≤ 0`, `retryOperation` resolves to
`undefined` without invoking the supplied operation (0 invocations, no
delays) and without throwing. -/
theorem retryOperation_nonpositive_resolves_undefined {α : Type u}
    (op : Nat → Except String α) (maxRetries : Int) (name : String)
    (h : maxRetries ≤ 0) :
    retryOperation op maxRetries name = (.undef, 0, []) := by
  simp [retryOperation, retryLoop, if_pos h]

theorem retryOperation_nonpositive_resolves_undefined_witness :
    retryOperation opFailTwice 0 "Operation" = (.undef, 0, []) :=
  retryOperation_nonpositive_resolves_undefined opFailTwice 0 "Operation" (by decide)

/-! ### Handler theorems -/

/-- Score component of an assessment JSON value, as an integer. -/
def scoreField (j : Json) (k : String) : Option Int :=
  ((j.lookup "score").bind (fun s => Json.lookup s k)).bind Json.asInt

/-- C7: a multipart request without an `audio` field is rejected with
status 400 and error `"No audio file provided"`; no temporary audio
file is created and neither external capability is invoked. -/
theorem postAssessment_no_audio (env : Env) (question : Option String) :
    postAssessment env none question =
      { status := 400,
        body := .badRequest "No audio file provided" "Please provide an audio file in the request",
        filesCreated := [], cleanupCalls := [],
        transcriptionCalls := 0, evaluationCalls := 0 } := rfl

/-- C1: a multipart request with a present audio file and a missing
`question` field is rejected with status 400 and error
`"No question provided"`, but the temporary audio file multer already
wrote is never passed to `cleanupFile` and is still on disk when the
request terminates — the early-return validation path skips the
cleanup the other exits perform. -/
theorem postAssessment_missing_question_leaks_file (env : Env) (f : UploadedFile) :
    postAssessment env (some f) none =
      { status := 400,
        body := .badRequest "No question provided" "Please provide a question in the request body",
        filesCreated := [f.path], cleanupCalls := [],
        transcriptionCalls := 0, evaluationCalls := 0 }
    ∧ (postAssessment env (some f) none).remainingFiles = [f.path] := by
  constructor
  · rfl
  · simp [postAssessment, HandlerOutcome.remainingFiles]

/-- C9: for every unmatched method and URL, the 404 body's
`availableEndpoint` field is the constant `"POST /api/assess"`, which
differs from the route the server actually registers,
`POST /api/assessment`. -/
theorem notFound_availableEndpoint_mismatch (method originalUrl : String) :
    (notFoundHandler method originalUrl).body.availableEndpointHint = some "POST /api/assess"
    ∧ "POST /api/assess" ≠ servedEndpoint := by
  exact ⟨rfl, by decide⟩

/-- C5: for every request that passes input validation (audio present,
question truthy), the temporary audio file is passed to `cleanupFile`
before the request reaches a terminal state, on the success path and
on every pipeline-failure path alike, so no temporary file remains. -/
theorem postAssessment_always_cleans_up (env : Env) (f : UploadedFile) (q : String)
    (hq : (q == "") = false) :
    (postAssessment env (some f) (some q)).remainingFiles = [] := by
  unfold postAssessment
  simp only [Option.getD, hq, Bool.false_eq_true, if_false]
  split <;> try simp [HandlerOutcome.remainingFiles]
  split <;> simp [HandlerOutcome.remainingFiles]

/-- Concrete uploaded file used by the closed witnesses below. -/
def fileW : UploadedFile :=
  { path := "uploads/audio-1700000000000-123456789.mp3",
    filename := "audio-1700000000000-123456789.mp3",
    originalname := "answer.mp3", size := 2048 }

/-- Environment whose transcription succeeds at once, whose evaluation
succeeds at once, and whose evaluation content fails JSON parsing. -/
def envParseFail : Env :=
  { transcriptionAttempts := fun _ => .ok "the water cycle moves water",
    evaluationAttempts := fun _ => .ok "not json at all",
    parse := fun _ => .error "Unexpected token o in JSON at position 1",
    now := "2026-10-11T00:00:00.000Z" }

theorem postAssessment_always_cleans_up_witness :
    (postAssessment envParseFail (some fileW) (some "Explain the water cycle")).remainingFiles
      = [] :=
  postAssessment_always_cleans_up envParseFail fileW "Explain the water cycle" (by decide)

/-- C4: when transcription succeeds, the evaluation call succeeds, and
the returned content is not parseable JSON, the request still
completes with status 200, `success: true` and the fixed fallback
Assessment, whose score is `content = 3`, `clarity = 2`,
`completeness = 1`, `total = 6`; the parse failure never surfaces as
an error response. -/
theorem postAssessment_parse_failure_returns_fallback (env : Env) (f : UploadedFile)
    (q : String) (hq : (q == "") = false)
    (t : String) (ta : Nat) (d1 : List Int)
    (h1 : retryOperation env.transcriptionAttempts 3 "Transcription" = (.success t, ta, d1))
    (c : String) (ea : Nat) (d2 : List Int)
    (h2 : retryOperation env.evaluationAttempts 3 "Evaluation" = (.success c, ea, d2))
    (e : String) (hp : env.parse c = .error e) :
    postAssessment env (some f) (some q) =
      { status := 200,
        body := .success true q t fallbackJson
          { audioFile := f.filename, originalName := f.originalname, fileSize := f.size,
            model := "gpt-4o-mini", transcriptionModel := "whisper-1",
            evaluatedAt := env.now },
        filesCreated := [f.path], cleanupCalls := [f.path],
        transcriptionCalls := ta, evaluationCalls := ea }
    ∧ scoreField fallbackJson "content" = some 3
    ∧ scoreField fallbackJson "clarity" = some 2
    ∧ scoreField fallbackJson "completeness" = some 1
    ∧ scoreField fallbackJson "total" = some 6 := by
  refine ⟨?_, rfl, rfl, rfl, rfl⟩
  unfold postAssessment
  simp only [Option.getD, hq, Bool.false_eq_true, if_false, h1, h2, hp]

theorem postAssessment_parse_failure_returns_fallback_witness :
    postAssessment envParseFail (some fileW) (some "Explain the water cycle") =
      { status := 200,
        body := .success true "Explain the water cycle" "the water cycle moves water"
          fallbackJson
          { audioFile := fileW.filename, originalName := fileW.originalname,
            fileSize := fileW.size, model := "gpt-4o-mini",
            transcriptionModel := "whisper-1", evaluatedAt := envParseFail.now },
        filesCreated := [fileW.path], cleanupCalls := [fileW.path],
        transcriptionCalls := 1, evaluationCalls := 1 }
    ∧ scoreField fallbackJson "content" = some 3
    ∧ scoreField fallbackJson "clarity" = some 2
    ∧ scoreField fallbackJson "completeness" = some 1
    ∧ scoreField fallbackJson "total" = some 6 :=
  postAssessment_parse_failure_returns_fallback envParseFail fileW
    "Explain the water cycle" (by decide)
    "the water cycle moves water" 1 []
    (retryOperation_three_ok0 envParseFail.transcriptionAttempts "Transcription"
      "the water cycle moves water" rfl)
    "not json at all" 1 []
    (retryOperation_three_ok0 envParseFail.evaluationAttempts "Evaluation"
      "not json at all" rfl)
    "Unexpected token o in JSON at position 1" rfl

/-- C8: when the pipeline fails with an exhausted-retry (or any other)
error, the handler responds 500 with body `{error, details}` where
`details` is the caught error message and `error` is computed from it
by the sequential substring classifier: an `"ECONNRESET"` mention
yields the connectivity message; otherwise an `"API key"` mention
yields the credential message; otherwise a `"rate limit"` mention
yields the rate-limit message; otherwise the generic
`"Failed to assess audio"`. -/
theorem postAssessment_failure_categorized (env : Env) (f : UploadedFile) (q : String)
    (hq : (q == "") = false) :
    (∀ msg ta d, retryOperation env.transcriptionAttempts 3 "Transcription"
        = (.failure msg, ta, d) →
      (postAssessment env (some f) (some q)).status = 500
      ∧ (postAssessment env (some f) (some q)).body = .serverError (categorizeError msg) msg)
    ∧ (∀ t ta d1 msg ea d2,
        retryOperation env.transcriptionAttempts 3 "Transcription" = (.success t, ta, d1) →
        retryOperation env.evaluationAttempts 3 "Evaluation" = (.failure msg, ea, d2) →
      (postAssessment env (some f) (some q)).status = 500
      ∧ (postAssessment env (some f) (some q)).body = .serverError (categorizeError msg) msg)
    ∧ (∀ m, strContains m "ECONNRESET" = true →
        categorizeError m
          = "Network connection issue. Please check your internet connection and try again.")
    ∧ (∀ m, strContains m "ECONNRESET" = false → strContains m "API key" = true →
        categorizeError m = "OpenAI API key issue. Please check your configuration.")
    ∧ (∀ m, strContains m "ECONNRESET" = false → strContains m "API key" = false →
        strContains m "rate limit" = true →
        categorizeError m = "OpenAI rate limit exceeded. Please wait a moment and try again.")
    ∧ (∀ m, strContains m "ECONNRESET" = false → strContains m "API key" = false →
        strContains m "rate limit" = false →
        categorizeError m = "Failed to assess audio") := by
  refine ⟨?_, ?_, ?_, ?_, ?_, ?_⟩
  · intro msg ta d h1
    unfold postAssessment
    simp [Option.getD, hq, h1]
  · intro t ta d1 msg ea d2 h1 h2
    unfold postAssessment
    simp [Option.getD, hq, h1, h2]
  · intro m hm
    simp [categorizeError, hm]
  · intro m hm1 hm2
    simp [categorizeError, hm1, hm2]
  · intro m hm1 hm2 hm3
    simp [categorizeError, hm1, hm2, hm3]
  · intro m hm1 hm2 hm3
    simp [categorizeError, hm1, hm2, hm3]

/-- Environment whose transcription fails on all three attempts with a
rate-limit message. -/
def envRateLimited : Env :=
  { transcriptionAttempts := fun _ => .error "429 rate limit reached for whisper-1",
    evaluationAttempts := fun _ => .ok "{}",
    parse := fun _ => .error "unused",
    now := "2026-10-11T00:00:00.000Z" }

theorem postAssessment_failure_categorized_witness :
    (postAssessment envRateLimited (some fileW) (some "Explain recursion")).status = 500
    ∧ (postAssessment envRateLimited (some fileW) (some "Explain recursion")).body
      = .serverError
          (categorizeError
            "Failed to complete transcription after 3 attempts: 429 rate limit reached for whisper-1")
          "Failed to complete transcription after 3 attempts: 429 rate limit reached for whisper-1" :=
  (postAssessment_failure_categorized envRateLimited fileW "Explain recursion" (by decide)).1
    "Failed to complete transcription after 3 attempts: 429 rate limit reached for whisper-1"
    3 [1000, 2000] (by decide)

/-- A parseable generation output whose score violates the rubric
shape: components out of `[0,5]` and `total` different from their
sum. -/
def badAssessmentJson : Json :=
  .obj [
    ("strengths", .arr [.str "clear voice", .str "good pace"]),
    ("areasToImprove", .arr [.str "add detail", .str "add examples"]),
    ("perfectDefinition", .str "a model answer"),
    ("encouragement", .str "keep going"),
    ("score", .obj [
      ("content", .num 9),
      ("clarity", .num 9),
      ("completeness", .num 9),
      ("total", .num 5)])]

/-- Environment whose generation output parses to
`badAssessmentJson`. -/
def envShapeViolating : Env :=
  { transcriptionAttempts := fun _ => .ok "photosynthesis makes sugar",
    evaluationAttempts := fun _ => .ok "raw model output",
    parse := fun _ => .ok badAssessmentJson,
    now := "2026-10-11T00:00:00.000Z" }

/-- C2 counterexample: a 200 response can carry an assessment whose
score violates `total = content + clarity + completeness` and the
`[0,5]` component range — the handler validates nothing about a
parseable generation output and returns it verbatim instead of
substituting the fallback. -/
theorem response200_score_invariant_cex :
    (postAssessment envShapeViolating (some fileW) (some "Explain photosynthesis")).status = 200
    ∧ (postAssessment envShapeViolating (some fileW)
        (some "Explain photosynthesis")).body.assessmentJson = some badAssessmentJson
    ∧ scoreWellFormed badAssessmentJson = false
    ∧ (postAssessment envShapeViolating (some fileW)
        (some "Explain photosynthesis")).body.assessmentJson ≠ some fallbackJson := by
  refine ⟨rfl, rfl, by decide, ?_⟩
  intro h
  have hb : badAssessmentJson = fallbackJson := by
    have h2 : some badAssessmentJson = some fallbackJson := by
      rw [← h]
      rfl
    exact Option.some.inj h2
  have : scoreWellFormed badAssessmentJson = scoreWellFormed fallbackJson :=
    congrArg scoreWellFormed hb
  rw [show scoreWellFormed badAssessmentJson = false from by decide,
    show scoreWellFormed fallbackJson = true from by decide] at this
  exact Bool.false_ne_true this

/-- C2 amended: the score invariant holds for the fallback Assessment,
and the fallback is substituted exactly when the generation output
fails JSON parsing — an output that parses is placed in the 200
response unchanged, with no shape validation. -/
theorem response200_assessment_parse_policy (env : Env) (f : UploadedFile) (q : String)
    (hq : (q == "") = false)
    (t : String) (ta : Nat) (d1 : List Int)
    (h1 : retryOperation env.transcriptionAttempts 3 "Transcription" = (.success t, ta, d1))
    (c : String) (ea : Nat) (d2 : List Int)
    (h2 : retryOperation env.evaluationAttempts 3 "Evaluation" = (.success c, ea, d2)) :
    scoreWellFormed fallbackJson = true
    ∧ (∀ e, env.parse c = .error e →
        (postAssessment env (some f) (some q)).body.assessmentJson = some fallbackJson)
    ∧ (∀ j, env.parse c = .ok j →
        (postAssessment env (some f) (some q)).body.assessmentJson = some j) := by
  refine ⟨by decide, ?_, ?_⟩
  · intro e hp
    unfold postAssessment
    simp [Option.getD, hq, h1, h2, hp, Body.assessmentJson]
  · intro j hp
    unfold postAssessment
    simp [Option.getD, hq, h1, h2, hp, Body.assessmentJson]

theorem response200_assessment_parse_policy_witness :
    scoreWellFormed fallbackJson = true
    ∧ (postAssessment envShapeViolating (some fileW)
        (some "Explain photosynthesis")).body.assessmentJson = some badAssessmentJson :=
  have h := response200_assessment_parse_policy envShapeViolating fileW
    "Explain photosynthesis" (by decide)
    "photosynthesis makes sugar" 1 []
    (retryOperation_three_ok0 envShapeViolating.transcriptionAttempts "Transcription"
      "photosynthesis makes sugar" rfl)
    "raw model output" 1 []
    (retryOperation_three_ok0 envShapeViolating.evaluationAttempts "Evaluation"
      "raw model output" rfl)
  ⟨h.1, h.2.2 badAssessmentJson rfl⟩

/-- C6 counterexample: the fallback Assessment does not satisfy the
data-model cardinality for feedback lists — its `strengths` and
`areasToImprove` arrays each hold exactly one string, not 2 to 4. -/
theorem fallback_list_cardinality_cex :
    (fallbackJson.lookup "strengths").bind Json.arrayLength = some 1
    ∧ (fallbackJson.lookup "areasToImprove").bind Json.arrayLength = some 1
    ∧ ¬(2 ≤ (1 : Nat) ∧ (1 : Nat) ≤ 4) := by
  exact ⟨rfl, rfl, by decide⟩

/-- C6 amended: whenever the fallback Assessment is substituted the
caller receives a value with all five documented members — string
arrays `strengths` and `areasToImprove`, strings `perfectDefinition`
and `encouragement`, and a score satisfying the rubric invariant
(`3 + 2 + 1 = 6`, each component in `[0,5]`) — but `strengths` and
`areasToImprove` each hold exactly one short string rather than the
2-4 the data model prescribes. -/
theorem fallback_shape_amended :
    fallbackJson.lookup "strengths" = some (.arr [.str "Good effort"])
    ∧ fallbackJson.lookup "areasToImprove" = some (.arr [.str "Could improve structure"])
    ∧ fallbackJson.lookup "perfectDefinition"
      = some (.str "A comprehensive answer with clear examples")
    ∧ fallbackJson.lookup "encouragement" = some (.str "Keep practicing!")
    ∧ scoreWellFormed fallbackJson = true
    ∧ scoreField fallbackJson "content" = some 3
    ∧ scoreField fallbackJson "clarity" = some 2
    ∧ scoreField fallbackJson "completeness" = some 1
    ∧ scoreField fallbackJson "total" = some 6
    ∧ (fallbackJson.lookup "strengths").bind Json.arrayLength = some 1
    ∧ (fallbackJson.lookup "areasToImprove").bind Json.arrayLength = some 1 := by
  exact ⟨rfl, rfl, rfl, rfl, by decide, rfl, rfl, rfl, rfl, rfl, rfl⟩
